import Mathlib

/-!
Shallow embedding of the TinyOS RTOS kernel (cmc-labo/tinyos-rtos) and proofs
about it.  Each definition is translated from a function of the C source:
`src/kernel.c` (scheduler, tasks, priorities), `src/sync.c` (mutex, event
group, message queue), `src/timer.c` (software timers), `src/memory.c`
(block allocator).  Machine integers are modelled as `Nat` with explicit
`% 2^32` (resp. `% 256`) where the C performs 32-bit (resp. 8-bit)
arithmetic.  Critical sections (`os_enter_critical` / `os_exit_critical`)
only mask interrupts and change no modelled state, so they vanish in the
embedding.  The single hardware context-switch primitive (`context_switch`,
assembly) transfers control; the scheduler-visible effect of a switch is the
update of `current_task`, state, and time slice, which is modelled.
-/

namespace TinyOS

/-- Modulus of `uint32_t` arithmetic. -/
def U32 : Nat := 4294967296

/-- Configuration constants from `include/tinyos.h`. -/
def MAX_TASKS : Nat := 8

/-- Time slice quantum (`TIME_SLICE_MS` in `include/tinyos.h`). -/
def TIME_SLICE_MS : Nat := 10

/-- Idle priority (`PRIORITY_IDLE`). -/
def PRIORITY_IDLE : Nat := 255

/-- Task states (`task_state_t`).  `ready` is the all-zero value, which is
what `memset(&kernel, 0, ...)` in `os_init` leaves in every TCB. -/
inductive TaskState
  | ready
  | running
  | blocked
  | suspended
  | terminated
deriving DecidableEq, Repr

/-- Return codes (`os_error_t`). -/
inductive OsError
  | ok
  | error
  | noMemory
  | invalidParam
  | timeout
  | permissionDenied
deriving DecidableEq, Repr

/-- Task control block (`tcb_t`).  The stack array, saved stack pointer,
name, entry point and parameter are raw memory / code pointers with no
bearing on the scheduling state, so they are not carried in the model. -/
structure TCB where
  state : TaskState
  priority : Nat        -- task_priority_t (uint8_t), 0 = highest
  base_priority : Nat   -- snapshot for priority inheritance
  time_slice : Nat      -- uint32_t, remaining ticks
  run_time : Nat        -- uint32_t, cumulative ticks observed Running
deriving DecidableEq, Repr

/-- Task identifier: stands for a `tcb_t *`.  Indices 0..7 are the kernel
task pool (`kernel.task_pool`), index 0 the idle task. -/
abbrev TaskId := Nat

/-- The file-scope `kernel` struct of `src/kernel.c`. -/
structure Kernel where
  current_task : Option TaskId
  ready_queue : Nat → List TaskId   -- tcb_t *ready_queue[256], FIFO per priority
  tasks : TaskId → TCB
  task_count : Nat
  tick_count : Nat                  -- volatile uint32_t
  context_switch_count : Nat        -- volatile uint32_t
  scheduler_running : Bool

/-- Pointwise update of one TCB in the task pool. -/
def updTask (k : Kernel) (t : TaskId) (f : TCB → TCB) : Kernel :=
  { k with tasks := fun j => if j = t then f (k.tasks j) else k.tasks j }

/-- The all-zero kernel state produced by `memset(&kernel, 0, sizeof(kernel))`
at the top of `os_init` (kernel.c line 34). -/
def zeroKernel : Kernel where
  current_task := none
  ready_queue := fun _ => []
  tasks := fun _ => { state := .ready, priority := 0, base_priority := 0,
                      time_slice := 0, run_time := 0 }
  task_count := 0
  tick_count := 0
  context_switch_count := 0
  scheduler_running := false

/-- `scheduler_add_ready_task` (kernel.c lines 67-83): set the state to
Ready and append the task at the tail of its priority's FIFO list. -/
def scheduler_add_ready_task (k : Kernel) (t : TaskId) : Kernel :=
  let k := updTask k t (fun tcb => { tcb with state := .ready })
  let p := (k.tasks t).priority
  { k with ready_queue := fun j =>
      if j = p then k.ready_queue p ++ [t] else k.ready_queue j }

/-- `scheduler_get_next_task` (kernel.c lines 51-62): scan priorities from 0
up, pop the head of the first non-empty list; if all lists are empty return
the idle task `&kernel.task_pool[0]` without dequeuing anything. -/
def scheduler_get_next_task (k : Kernel) : TaskId × Kernel :=
  match (List.range 256).find? (fun i => !(k.ready_queue i).isEmpty) with
  | some i =>
    match k.ready_queue i with
    | t :: rest =>
      (t, { k with ready_queue := fun j => if j = i then rest else k.ready_queue j })
    | [] => (0, k)   -- unreachable: find? returned a non-empty list
  | none => (0, k)

/-- Remove the first occurrence of a task from one list (unlinking from a
singly-linked intrusive list). -/
def removeFirst : List TaskId → TaskId → List TaskId
  | [], _ => []
  | x :: xs, t => if x = t then xs else x :: removeFirst xs t

/-- `scheduler_remove_task` (kernel.c lines 351-372): search all priority
queues in ascending order and unlink the first occurrence of the task. -/
def scheduler_remove_task (k : Kernel) (t : TaskId) : Kernel :=
  match (List.range 256).find? (fun i => (k.ready_queue i).contains t) with
  | some i =>
    { k with ready_queue := fun j =>
        if j = i then removeFirst (k.ready_queue i) t else k.ready_queue j }
  | none => k

/-- The context-switch block of `os_scheduler` (kernel.c lines 115-122):
bump the switch counter, make `next` the current task, mark it Running and
reset its time slice.  The register save/restore of `context_switch` is
the control transfer itself and has no further scheduler-visible state. -/
def scheduler_switch_to (k : Kernel) (next : TaskId) : Kernel :=
  let k := { k with context_switch_count := (k.context_switch_count + 1) % U32,
                    current_task := some next }
  updTask k next (fun tcb =>
    { tcb with state := .running, time_slice := TIME_SLICE_MS })

/-- The slice-expired block of `os_scheduler` (kernel.c lines 106-124):
re-queue the current task if it is still Running, pick the next task, and
switch if it differs from the outgoing one. -/
def scheduler_preempt (k : Kernel) (ct : TaskId) : Kernel :=
  let k := if (k.tasks ct).state = .running
           then scheduler_add_ready_task k ct else k
  let nk := scheduler_get_next_task k
  if nk.1 ≠ ct then scheduler_switch_to nk.2 nk.1 else nk.2

/-- `os_scheduler` (kernel.c lines 93-126), the tick handler.  Note that the
time slice is decremented in `uint32_t` arithmetic BEFORE the `== 0` test,
and that the function contains no call into the timer service. -/
def os_scheduler (k : Kernel) : Kernel :=
  if !k.scheduler_running then k
  else
    let k := { k with tick_count := (k.tick_count + 1) % U32 }
    match k.current_task with
    | none => k
    | some ct =>
      let k := updTask k ct (fun tcb =>
        { tcb with run_time := (tcb.run_time + 1) % U32,
                   time_slice := (tcb.time_slice + (U32 - 1)) % U32 })
      if (k.tasks ct).time_slice = 0 then scheduler_preempt k ct
      else k

/-- `os_task_yield` (kernel.c lines 259-263): zero the current task's time
slice and invoke the scheduler.  The C dereferences `kernel.current_task`
unconditionally; a `NULL` current task is undefined behaviour and never
occurs after `os_start`, so the model leaves the state unchanged there. -/
def os_task_yield (k : Kernel) : Kernel :=
  match k.current_task with
  | none => k
  | some ct => os_scheduler (updTask k ct (fun tcb => { tcb with time_slice := 0 }))

/-- Loop of `os_task_delay` (kernel.c lines 270-272), with fuel for the
unbounded `while`. -/
def delayLoop : Nat → Nat → Kernel → Kernel
  | 0, _, k => k
  | fuel + 1, target, k =>
    if k.tick_count < target then delayLoop fuel target (os_task_yield k) else k

/-- `os_task_delay` (kernel.c lines 268-273): `target = tick_count + ticks`
in `uint32_t`, then spin on `tick_count < target`. -/
def os_task_delay (fuel : Nat) (k : Kernel) (ticks : Nat) : Kernel :=
  delayLoop fuel ((k.tick_count + ticks) % U32) k

/-- `os_task_create` (kernel.c lines 155-200).  The caller's `tcb_t *task`
is a task id; `entryNull` models `entry == NULL`.  The synthetic stack
frame (lines 181-193) is raw memory for the context-switch trampoline and
has no scheduler-visible content.  Priorities are `uint8_t`, hence `% 256`. -/
def os_task_create (k : Kernel) (task : Option TaskId) (entryNull : Bool)
    (priority : Nat) : OsError × Kernel :=
  match task with
  | none => (.invalidParam, k)
  | some t =>
    if entryNull then (.invalidParam, k)
    else if MAX_TASKS ≤ k.task_count then (.noMemory, k)
    else
      let k := updTask k t (fun _ =>
        { state := .ready, priority := priority % 256,
          base_priority := priority % 256,
          time_slice := TIME_SLICE_MS, run_time := 0 })
      let k := scheduler_add_ready_task k t
      (.ok, { k with task_count := k.task_count + 1 })

/-- `os_init` (kernel.c lines 33-46): zero the kernel, create the idle task
in pool slot 0 at `PRIORITY_IDLE`, then set `task_count = 1`. -/
def os_init : Kernel :=
  let k := (os_task_create zeroKernel (some 0) false PRIORITY_IDLE).2
  { k with task_count := 1 }

/-- `os_start` (kernel.c lines 131-150): mark the scheduler running, pick
the first task and make it Running.  The `asm` jump transfers control; its
scheduling state is fully in the updates modelled here. -/
def os_start (k : Kernel) : Kernel :=
  let k := { k with scheduler_running := true }
  let nk := scheduler_get_next_task k
  let next := nk.1
  let k := { nk.2 with current_task := some next }
  updTask k next (fun tcb => { tcb with state := .running })

/-- `os_task_set_priority` (kernel.c lines 388-421): set both current and
base priority, re-queue if Ready, and yield if the running task lowered
itself or a higher-priority task became ready.  The second yield test
dereferences `kernel.current_task`; with a `NULL` current task that read is
undefined behaviour (only possible before `os_start`), modelled as no
reschedule. -/
def os_task_set_priority (k : Kernel) (task : Option TaskId) (newPriority : Nat) :
    OsError × Kernel :=
  match task with
  | none => (.invalidParam, k)
  | some t =>
    let p := newPriority % 256
    let oldPriority := (k.tasks t).priority
    let k := updTask k t (fun tcb => { tcb with priority := p, base_priority := p })
    let k := if (k.tasks t).state = .ready
             then scheduler_add_ready_task (scheduler_remove_task k t) t else k
    if k.current_task = some t ∧ oldPriority < p then (.ok, os_task_yield k)
    else
      match k.current_task with
      | none => (.ok, k)
      | some c => if p < (k.tasks c).priority then (.ok, os_task_yield k) else (.ok, k)

/-- `os_task_raise_priority` (kernel.c lines 427-458): raise (numerically
lower) the current priority only; `base_priority` is untouched. -/
def os_task_raise_priority (k : Kernel) (task : Option TaskId) (newPriority : Nat) :
    OsError × Kernel :=
  match task with
  | none => (.invalidParam, k)
  | some t =>
    let p := newPriority % 256
    if (k.tasks t).priority ≤ p then (.ok, k)
    else
      let k := updTask k t (fun tcb => { tcb with priority := p })
      let k := if (k.tasks t).state = .ready
               then scheduler_add_ready_task (scheduler_remove_task k t) t else k
      match k.current_task with
      | none => (.ok, k)
      | some c => if p < (k.tasks c).priority then (.ok, os_task_yield k) else (.ok, k)

/-- `os_task_reset_priority` (kernel.c lines 464-490): write
`priority ← base_priority`, re-queue if Ready, yield if the running task
just lowered itself. -/
def os_task_reset_priority (k : Kernel) (task : Option TaskId) : OsError × Kernel :=
  match task with
  | none => (.invalidParam, k)
  | some t =>
    let oldPriority := (k.tasks t).priority
    let k := updTask k t (fun tcb => { tcb with priority := tcb.base_priority })
    let k := if (k.tasks t).state = .ready
             then scheduler_add_ready_task (scheduler_remove_task k t) t else k
    if k.current_task = some t ∧ oldPriority < (k.tasks t).priority
    then (.ok, os_task_yield k)
    else (.ok, k)

/-- `os_task_get_cpu_usage` (kernel.c lines 340-346): 0 for a `NULL` task or
a zero tick counter, otherwise `(uint8_t)((run_time * 100) / tick_count)`
where the product is `uint32_t` and the final cast truncates to 8 bits. -/
def os_task_get_cpu_usage (k : Kernel) (task : Option TaskId) : Nat :=
  match task with
  | none => 0
  | some t =>
    if k.tick_count = 0 then 0
    else (((k.tasks t).run_time * 100) % U32 / k.tick_count) % 256

/-!  Message queue (`msg_queue_t`, sync.c lines 165-279).  The buffer is
caller storage into which items are copied by value; the indices `head`,
`tail`, `count` are the queue discipline.  `os_queue_send` and
`os_queue_receive` serialize on the queue's internal mutex and retry until
their branch guard holds; the state change of one successful operation is
the guarded block (send: sync.c lines 210-219, receive: lines 257-266),
embedded below.  -/

/-- Message queue indices (`msg_queue_t`, include/tinyos.h lines 87-95). -/
structure MsgQueue where
  item_size : Nat
  max_items : Nat
  head : Nat
  tail : Nat
  count : Nat
deriving DecidableEq, Repr

/-- `os_queue_init` (sync.c lines 165-185): reject zero sizes (and null
pointers, not modelled), else zero the indices. -/
def os_queue_init (item_size max_items : Nat) : Option MsgQueue :=
  if item_size = 0 ∨ max_items = 0 then none
  else some { item_size := item_size, max_items := max_items,
              head := 0, tail := 0, count := 0 }

/-- The successful branch of `os_queue_send` (sync.c lines 210-219): when
`count < max_items`, copy the item into slot `tail`, advance `tail` modulo
`max_items`, increment `count`.  Returns `none` when the queue is full (the
caller then retries or times out without changing the indices). -/
def queue_send_success (q : MsgQueue) : Option MsgQueue :=
  if q.count < q.max_items then
    some { q with tail := (q.tail + 1) % q.max_items, count := q.count + 1 }
  else none

/-- The successful branch of `os_queue_receive` (sync.c lines 257-266):
when `count > 0`, copy the item out of slot `head`, advance `head` modulo
`max_items`, decrement `count`. -/
def queue_receive_success (q : MsgQueue) : Option MsgQueue :=
  if 0 < q.count then
    some { q with head := (q.head + 1) % q.max_items, count := q.count - 1 }
  else none

/-- One queue operation of an interleaving. -/
inductive QOp
  | send
  | receive
deriving DecidableEq, Repr

/-- Run a sequence of send/receive attempts; an attempt whose guard fails
(full on send, empty on receive) leaves the queue unchanged, exactly as the
retry loops in `os_queue_send` / `os_queue_receive` do. -/
def queueRun (q : MsgQueue) : List QOp → MsgQueue
  | [] => q
  | op :: ops =>
    let q := match op with
      | .send => (queue_send_success q).getD q
      | .receive => (queue_receive_success q).getD q
    queueRun q ops

/-- The queue invariant exactly as the specification states it:
`0 ≤ count ≤ max_items`, `head < max_items`, `tail < max_items`, and
`(tail - head) mod max_items == count` (mathematical integers). -/
def queueClaimInv (q : MsgQueue) : Prop :=
  q.count ≤ q.max_items ∧ q.head < q.max_items ∧ q.tail < q.max_items ∧
  ((q.tail : ℤ) - (q.head : ℤ)) % (q.max_items : ℤ) = (q.count : ℤ)

instance (q : MsgQueue) : Decidable (queueClaimInv q) := by
  unfold queueClaimInv; infer_instance

/-- The invariant that actually holds: the last conjunct only modulo
`max_items` (a full queue has `tail = head`, so the modular difference is
`0`, not `max_items`). -/
def queueInv (q : MsgQueue) : Prop :=
  q.count ≤ q.max_items ∧ q.head < q.max_items ∧ q.tail < q.max_items ∧
  ((q.tail : ℤ) - (q.head : ℤ)) % (q.max_items : ℤ) = ((q.count % q.max_items : Nat) : ℤ)

/-- Strong inductive invariant: `tail` is `head + count` modulo capacity. -/
def queueWF (q : MsgQueue) : Prop :=
  0 < q.max_items ∧ q.count ≤ q.max_items ∧ q.head < q.max_items ∧
  q.tail = (q.head + q.count) % q.max_items

theorem queueWF_init {i m : Nat} {q : MsgQueue} (h : os_queue_init i m = some q) :
    queueWF q := by
  unfold os_queue_init at h
  by_cases hz : i = 0 ∨ m = 0
  · simp [hz] at h
  · simp only [if_neg hz, Option.some.injEq] at h
    push_neg at hz
    refine h ▸ ⟨Nat.pos_of_ne_zero hz.2, Nat.zero_le _, Nat.pos_of_ne_zero hz.2, ?_⟩
    simp

theorem queueWF_send {q q' : MsgQueue} (hwf : queueWF q)
    (h : queue_send_success q = some q') : queueWF q' := by
  obtain ⟨hm, hc, hh, ht⟩ := hwf
  unfold queue_send_success at h
  by_cases hfull : q.count < q.max_items
  · simp only [if_pos hfull, Option.some.injEq] at h
    subst h
    refine ⟨hm, hfull, hh, ?_⟩
    show (q.tail + 1) % q.max_items = (q.head + (q.count + 1)) % q.max_items
    rw [ht, Nat.mod_add_mod, Nat.add_assoc]
  · simp [hfull] at h

theorem queueWF_receive {q q' : MsgQueue} (hwf : queueWF q)
    (h : queue_receive_success q = some q') : queueWF q' := by
  obtain ⟨hm, hc, hh, ht⟩ := hwf
  unfold queue_receive_success at h
  by_cases hne : 0 < q.count
  · simp only [if_pos hne, Option.some.injEq] at h
    subst h
    refine ⟨hm, by show q.count - 1 ≤ q.max_items; omega,
      by show (q.head + 1) % q.max_items < q.max_items; exact Nat.mod_lt _ hm, ?_⟩
    show q.tail = ((q.head + 1) % q.max_items + (q.count - 1)) % q.max_items
    rw [Nat.mod_add_mod, ht]
    congr 1
    omega
  · simp [hne] at h

theorem queueWF_run {q : MsgQueue} (hwf : queueWF q) (ops : List QOp) :
    queueWF (queueRun q ops) := by
  induction ops generalizing q with
  | nil => exact hwf
  | cons op ops ih =>
    cases op with
    | send =>
      simp only [queueRun]
      rcases hs : queue_send_success q with _ | q2
      · simpa [hs] using ih hwf
      · simpa [hs] using ih (queueWF_send hwf hs)
    | receive =>
      simp only [queueRun]
      rcases hs : queue_receive_success q with _ | q2
      · simpa [hs] using ih hwf
      · simpa [hs] using ih (queueWF_receive hwf hs)

theorem queueWF_implies_queueInv {q : MsgQueue} (hwf : queueWF q) : queueInv q := by
  obtain ⟨hm, hc, hh, ht⟩ := hwf
  have htail : q.tail < q.max_items := ht ▸ Nat.mod_lt _ hm
  refine ⟨hc, hh, htail, ?_⟩
  rw [ht]
  push_cast
  rw [Int.sub_emod, Int.emod_emod_of_dvd _ dvd_rfl, ← Int.sub_emod]
  have hring : (q.head : ℤ) + (q.count : ℤ) - (q.head : ℤ) = (q.count : ℤ) := by ring
  rw [hring]

/-- C3: the invariant exactly as claimed fails on a full queue: initialize
with capacity 2, perform two successful sends; then `count = 2`, `tail =
head = 0`, and `(tail - head) mod max_items = 0 ≠ 2`. -/
theorem c3_claim_counterexample :
    queueRun { item_size := 4, max_items := 2, head := 0, tail := 0, count := 0 }
        [QOp.send, QOp.send]
      = { item_size := 4, max_items := 2, head := 0, tail := 0, count := 2 } ∧
    os_queue_init 4 2
      = some { item_size := 4, max_items := 2, head := 0, tail := 0, count := 0 } ∧
    ¬ queueClaimInv { item_size := 4, max_items := 2, head := 0, tail := 0, count := 2 } := by
  refine ⟨by decide, by decide, by decide⟩

/-- C3 (amended): for every queue produced by `os_queue_init` and every
interleaving of send and receive operations (only the successful ones
change the state), `count ≤ max_items`, `head < max_items`,
`tail < max_items`, and `(tail - head) mod max_items = count mod max_items`. -/
theorem c3_queue_invariant (i m : Nat) (q : MsgQueue) (ops : List QOp)
    (h : os_queue_init i m = some q) : queueInv (queueRun q ops) :=
  queueWF_implies_queueInv (queueWF_run (queueWF_init h) ops)

/-- Witness for C3: capacity-3 queue, send-send-receive-send. -/
theorem c3_queue_invariant_witness :
    queueInv (queueRun { item_size := 4, max_items := 3, head := 0, tail := 0, count := 0 }
      [QOp.send, QOp.send, QOp.receive, QOp.send]) :=
  c3_queue_invariant 4 3 _ [QOp.send, QOp.send, QOp.receive, QOp.send] (by decide)

/-!  Block allocator (`src/memory.c`).  The 4096-byte pool is divided into
128 blocks of 32 bytes; a `memory_block_t` header (next pointer, allocated
flag, payload size) sits at the start of each block the allocator touches.
Addresses are modelled as block indices (byte offset / 32); the value
returned to the caller is the byte offset of the payload.  -/

/-- Pool capacity (`MEMORY_POOL_SIZE`, memory.c line 12). -/
def MEMORY_POOL_SIZE : Nat := 4096

/-- Block granularity (`BLOCK_SIZE`, memory.c line 13). -/
def BLOCK_SIZE : Nat := 32

/-- `NUM_BLOCKS = MEMORY_POOL_SIZE / BLOCK_SIZE` (memory.c line 14). -/
def NUM_BLOCKS : Nat := 128

/-- `sizeof(memory_block_t)` on the 32-bit targets named in tinyos.h
(ARM Cortex-M, RISC-V32): a 4-byte pointer, a bool padded to 4, a 4-byte
`size_t`. -/
def HEADER_SIZE : Nat := 12

/-- One `memory_block_t` header.  `next` is a block index; after an
allocation the C stores `block + total_size`, which can point past the pool
end, so indices ≥ `NUM_BLOCKS` represent such dangling pointers. -/
structure MemBlock where
  next : Option Nat
  allocated : Bool
  size : Nat
deriving DecidableEq, Repr

/-- The file-scope `mem` struct of memory.c (lines 24-31). -/
structure MemState where
  blocks : Nat → MemBlock
  free_list : Option Nat
  free_bytes : Nat          -- size_t (32-bit)
  allocated_bytes : Nat
  allocation_count : Nat    -- uint32_t
  free_count : Nat

/-- Pointwise update of one block header. -/
def updBlock (s : MemState) (b : Nat) (f : MemBlock → MemBlock) : MemState :=
  { s with blocks := fun j => if j = b then f (s.blocks j) else s.blocks j }

/-- `os_mem_init` (memory.c lines 36-55): zero the bookkeeping, set
`free_bytes` to the pool size and chain all 128 blocks into the free list. -/
def os_mem_init : MemState where
  blocks := fun i =>
    { next := if i + 1 < NUM_BLOCKS then some (i + 1) else none,
      allocated := false, size := BLOCK_SIZE }
  free_list := some 0
  free_bytes := MEMORY_POOL_SIZE
  allocated_bytes := 0
  allocation_count := 0
  free_count := 0

/-- The contiguous-run scan inside `os_malloc` (memory.c lines 79-85):
starting at block `b`, add `BLOCK_SIZE` per unallocated block at successive
32-byte strides while `available < total`.  The C walk steps headers by raw
pointer arithmetic; stepping past the pool end would read out of bounds, so
the model stops at `NUM_BLOCKS`.  `left` is the number of strides still
inside the pool. -/
def contigAvail (s : MemState) (total : Nat) : Nat → Nat → Nat → Nat
  | 0, _, avail => avail
  | left + 1, check, avail =>
    if (s.blocks check).allocated ∨ total ≤ avail then avail
    else contigAvail s total left (check + 1) (avail + BLOCK_SIZE)

/-- The free-list walk of `os_malloc` (memory.c lines 72-112), with fuel
for the `while (block != NULL)` loop.  On success the run's first header is
marked allocated with the rounded-up size, the predecessor (or the list
head) is pointed just past the run, the byte counters are updated in
`size_t` arithmetic, and the payload's byte offset is returned. -/
def mallocWalk (s : MemState) (total : Nat) :
    Nat → Option Nat → Option Nat → Option Nat × MemState
  | 0, _, _ => (none, s)
  | _ + 1, none, _ => (none, s)
  | fuel + 1, some b, prev =>
    if ¬ (s.blocks b).allocated ∧
        total ≤ contigAvail s total (NUM_BLOCKS - b) b 0 then
      let s := updBlock s b (fun blk => { blk with allocated := true, size := total })
      let after := b + total / BLOCK_SIZE
      let s := match prev with
        | none => { s with free_list := some after }
        | some p => updBlock s p (fun blk => { blk with next := some after })
      let s := { s with
        free_bytes := (s.free_bytes + (U32 - total % U32)) % U32,
        allocated_bytes := (s.allocated_bytes + total) % U32,
        allocation_count := (s.allocation_count + 1) % U32 }
      (some (b * BLOCK_SIZE + HEADER_SIZE), s)
    else
      mallocWalk s total fuel ((s.blocks b).next) (some b)

/-- `os_malloc` (memory.c lines 60-116): reject size 0 and sizes beyond the
pool, otherwise round up to whole blocks (header included) and walk the
free list first-fit. -/
def os_malloc (fuel : Nat) (s : MemState) (size : Nat) : Option Nat × MemState :=
  if size = 0 ∨ MEMORY_POOL_SIZE < size then (none, s)
  else
    let blocks_needed := (size + HEADER_SIZE + BLOCK_SIZE - 1) / BLOCK_SIZE
    let total_size := blocks_needed * BLOCK_SIZE
    mallocWalk s total_size fuel s.free_list none

/-- C9: `os_malloc` returns `NULL` for size 0 and for any size above the
4096-byte pool capacity, before entering the critical section and without
touching the free list, the byte counters, or the allocation count: the
returned state is the input state. -/
theorem c9_malloc_rejects_bad_sizes (fuel : Nat) (s : MemState) (size : Nat)
    (h : size = 0 ∨ MEMORY_POOL_SIZE < size) :
    os_malloc fuel s size = (none, s) := by
  unfold os_malloc
  rw [if_pos h]

/-- Witness for C9 at size 0 and at size 4097 on the freshly initialized
pool. -/
theorem c9_malloc_rejects_bad_sizes_witness :
    os_malloc 200 os_mem_init 0 = (none, os_mem_init) ∧
    os_malloc 200 os_mem_init 4097 = (none, os_mem_init) :=
  ⟨c9_malloc_rejects_bad_sizes 200 os_mem_init 0 (Or.inl rfl),
   c9_malloc_rejects_bad_sizes 200 os_mem_init 4097 (Or.inr (by decide))⟩

/-!  C10: `os_task_get_cpu_usage` (kernel.c lines 340-346).  -/

/-- The CPU-usage formula exactly as the claim words it: `(run_time * 100)
/ tick_count` in exact arithmetic, truncated to 8 bits. -/
def cpu_usage_claimed (k : Kernel) (task : Option TaskId) : Nat :=
  match task with
  | none => 0
  | some t =>
    if k.tick_count = 0 then 0
    else ((k.tasks t).run_time * 100 / k.tick_count) % 256

/-- A kernel state after roughly 18.6 hours of ticks in which task 1 ran
every tick: `run_time = tick_count = 2^26`. -/
def cpuUsageKernel : Kernel :=
  { zeroKernel with
    tick_count := 67108864,
    tasks := fun j =>
      if j = 1 then { state := .running, priority := 128, base_priority := 128,
                      time_slice := 10, run_time := 67108864 }
      else (zeroKernel.tasks j) }

/-- C10 counterexample: with `run_time = tick_count = 2^26` the product
`run_time * 100` wraps in `uint32_t`, so the code returns 36 while the
claimed exact formula gives 100. -/
theorem c10_claim_counterexample :
    os_task_get_cpu_usage cpuUsageKernel (some 1) = 36 ∧
    cpu_usage_claimed cpuUsageKernel (some 1) = 100 ∧
    os_task_get_cpu_usage cpuUsageKernel (some 1)
      ≠ cpu_usage_claimed cpuUsageKernel (some 1) := by
  refine ⟨by decide, by decide, by decide⟩

/-- C10 (amended): `os_task_get_cpu_usage` is total and never divides by
zero — it returns 0 when the task is `NULL` or the tick counter is 0, is
always below 256, and otherwise returns `((run_time * 100) mod 2^32) /
tick_count` truncated to 8 bits (the product wraps in 32-bit arithmetic). -/
theorem c10_cpu_usage_total (k : Kernel) (task : Option TaskId) :
    (task = none → os_task_get_cpu_usage k task = 0) ∧
    (k.tick_count = 0 → os_task_get_cpu_usage k task = 0) ∧
    os_task_get_cpu_usage k task < 256 ∧
    (∀ t, task = some t → k.tick_count ≠ 0 →
      os_task_get_cpu_usage k task
        = ((k.tasks t).run_time * 100) % U32 / k.tick_count % 256) := by
  refine ⟨?_, ?_, ?_, ?_⟩
  · rintro rfl; rfl
  · intro h0
    cases task with
    | none => rfl
    | some t => simp [os_task_get_cpu_usage, h0]
  · cases task with
    | none => simp [os_task_get_cpu_usage]
    | some t =>
      by_cases h0 : k.tick_count = 0
      · simp [os_task_get_cpu_usage, h0]
      · simp only [os_task_get_cpu_usage, if_neg h0]
        exact Nat.mod_lt _ (by norm_num)
  · rintro t rfl h0
    simp [os_task_get_cpu_usage, h0]

/-- Kernel state for the C10 witness: task 1 ran 50 of 200 ticks. -/
def cpuSmallKernel : Kernel :=
  { zeroKernel with
    tick_count := 200,
    tasks := fun j =>
      if j = 1 then { state := .running, priority := 128, base_priority := 128,
                      time_slice := 10, run_time := 50 }
      else (zeroKernel.tasks j) }

/-- Witness for C10 at a concrete everyday state (25% usage). -/
theorem c10_cpu_usage_total_witness :
    os_task_get_cpu_usage cpuSmallKernel (some 1) = 50 * 100 % U32 / 200 % 256 := by
  have h := (c10_cpu_usage_total cpuSmallKernel (some 1)).2.2.2 1 rfl (by decide)
  simpa [cpuSmallKernel] using h

/-!  Preservation lemmas: none of the scheduler-internal helpers nor the
tick handler itself ever writes the `priority` or `base_priority` field of
any TCB.  These lemmas carry the priority invariants through re-queueing
and through the yields sprinkled across the API.  -/

/-- Two kernel states agree on every task's priority and base priority. -/
def samePriorities (k k' : Kernel) : Prop :=
  ∀ t, (k'.tasks t).priority = (k.tasks t).priority ∧
       (k'.tasks t).base_priority = (k.tasks t).base_priority

theorem samePriorities_refl (k : Kernel) : samePriorities k k :=
  fun _ => ⟨rfl, rfl⟩

theorem samePriorities_trans {k1 k2 k3 : Kernel}
    (h12 : samePriorities k1 k2) (h23 : samePriorities k2 k3) :
    samePriorities k1 k3 :=
  fun t => ⟨(h23 t).1.trans (h12 t).1, (h23 t).2.trans (h12 t).2⟩

theorem samePriorities_of_tasks_eq {k k' : Kernel} (h : k'.tasks = k.tasks) :
    samePriorities k k' :=
  fun t => by rw [h]; exact ⟨rfl, rfl⟩

theorem updTask_samePriorities (k : Kernel) (t : TaskId) (f : TCB → TCB)
    (hp : ∀ tcb, (f tcb).priority = tcb.priority)
    (hb : ∀ tcb, (f tcb).base_priority = tcb.base_priority) :
    samePriorities k (updTask k t f) := by
  intro u
  unfold updTask
  by_cases hu : u = t <;> simp [hu, hp, hb]

theorem add_ready_samePriorities (k : Kernel) (t : TaskId) :
    samePriorities k (scheduler_add_ready_task k t) := by
  intro u
  unfold scheduler_add_ready_task updTask
  by_cases hu : u = t <;> simp [hu]

theorem get_next_tasks_eq (k : Kernel) : (scheduler_get_next_task k).2.tasks = k.tasks := by
  unfold scheduler_get_next_task
  split
  · split <;> rfl
  · rfl

theorem get_next_current_eq (k : Kernel) :
    (scheduler_get_next_task k).2.current_task = k.current_task := by
  unfold scheduler_get_next_task
  split
  · split <;> rfl
  · rfl

theorem remove_tasks_eq (k : Kernel) (t : TaskId) :
    (scheduler_remove_task k t).tasks = k.tasks := by
  unfold scheduler_remove_task
  split <;> rfl

theorem switch_to_samePriorities (k : Kernel) (next : TaskId) :
    samePriorities k (scheduler_switch_to k next) := by
  intro u
  unfold scheduler_switch_to updTask
  by_cases hu : u = next <;> simp [hu]

theorem preempt_samePriorities (k : Kernel) (ct : TaskId) :
    samePriorities k (scheduler_preempt k ct) := by
  unfold scheduler_preempt
  dsimp only
  split
  · split
    · refine samePriorities_trans ?_ (switch_to_samePriorities _ _)
      refine samePriorities_trans ?_ (samePriorities_of_tasks_eq (get_next_tasks_eq _))
      exact add_ready_samePriorities k ct
    · refine samePriorities_trans ?_ (samePriorities_of_tasks_eq (get_next_tasks_eq _))
      exact add_ready_samePriorities k ct
  · split
    · refine samePriorities_trans ?_ (switch_to_samePriorities _ _)
      refine samePriorities_trans ?_ (samePriorities_of_tasks_eq (get_next_tasks_eq _))
      exact samePriorities_refl k
    · exact samePriorities_of_tasks_eq (get_next_tasks_eq _)

theorem scheduler_samePriorities (k : Kernel) : samePriorities k (os_scheduler k) := by
  unfold os_scheduler
  dsimp only
  split
  · exact samePriorities_refl k
  · split
    · exact samePriorities_of_tasks_eq rfl
    · split
      · refine samePriorities_trans ?_ (preempt_samePriorities _ _)
        refine samePriorities_trans ?_
          (updTask_samePriorities _ _ _ (fun _ => rfl) (fun _ => rfl))
        exact samePriorities_of_tasks_eq rfl
      · refine samePriorities_trans ?_
          (updTask_samePriorities _ _ _ (fun _ => rfl) (fun _ => rfl))
        exact samePriorities_of_tasks_eq rfl

theorem yield_samePriorities (k : Kernel) : samePriorities k (os_task_yield k) := by
  unfold os_task_yield
  split
  · exact samePriorities_refl k
  · refine samePriorities_trans ?_ (scheduler_samePriorities _)
    exact updTask_samePriorities _ _ _ (fun _ => rfl) (fun _ => rfl)

theorem remove_samePriorities (k : Kernel) (t : TaskId) :
    samePriorities k (scheduler_remove_task k t) :=
  samePriorities_of_tasks_eq (remove_tasks_eq k t)

/-!  Mutex (`mutex_t`, sync.c lines 14-101).  -/

/-- Mutex state (`mutex_t`, include/tinyos.h lines 74-78). -/
structure Mutex where
  locked : Bool
  owner : Option TaskId
  ceiling_priority : Nat
deriving DecidableEq, Repr

/-- `os_mutex_init` (sync.c lines 14-20). -/
def os_mutex_init : Mutex :=
  { locked := false, owner := none, ceiling_priority := PRIORITY_IDLE }

/-- `os_mutex_unlock` (sync.c lines 73-101): refuse with `PermissionDenied`
when the caller (the current task) is not the owner; otherwise reset the
caller to its base priority, release the mutex, and yield. -/
def os_mutex_unlock (m : Mutex) (k : Kernel) : OsError × Mutex × Kernel :=
  if m.owner ≠ k.current_task then (.permissionDenied, m, k)
  else
    let k := (os_task_reset_priority k k.current_task).2
    let m := { m with locked := false, owner := none }
    (.ok, m, os_task_yield k)

/-- C5: unlocking a mutex from a task that is not its owner returns
`PermissionDenied` and changes nothing: neither the mutex (locked flag,
owner, ceiling priority) nor any kernel state (in particular the caller's
current and base priority) is touched. -/
theorem c5_unlock_non_owner (m : Mutex) (k : Kernel) (c : TaskId)
    (hc : k.current_task = some c) (hno : m.owner ≠ some c) :
    os_mutex_unlock m k = (.permissionDenied, m, k) := by
  unfold os_mutex_unlock
  rw [hc, if_pos hno]

/-- Witness for C5: task 1 tries to unlock a mutex owned by task 2. -/
theorem c5_unlock_non_owner_witness :
    os_mutex_unlock { locked := true, owner := some 2, ceiling_priority := 128 }
        { zeroKernel with current_task := some 1 }
      = (.permissionDenied, { locked := true, owner := some 2, ceiling_priority := 128 },
         { zeroKernel with current_task := some 1 }) :=
  c5_unlock_non_owner { locked := true, owner := some 2, ceiling_priority := 128 }
    { zeroKernel with current_task := some 1 } 1 rfl (by decide)

/-!  C6: the `priority ≤ base_priority` invariant.  -/

/-- Every task's current priority is numerically at most its base priority
(0 is the highest priority, so current never exceeds base). -/
def priorityInv (k : Kernel) : Prop :=
  ∀ t, (k.tasks t).priority ≤ (k.tasks t).base_priority

theorem priorityInv_of_samePriorities {k k' : Kernel} (h : samePriorities k k')
    (hinv : priorityInv k) : priorityInv k' := by
  intro t
  rw [(h t).1, (h t).2]
  exact hinv t

theorem priorityInv_yield {k : Kernel} (hinv : priorityInv k) :
    priorityInv (os_task_yield k) :=
  priorityInv_of_samePriorities (yield_samePriorities k) hinv

theorem priorityInv_requeue {k : Kernel} (t : TaskId) (hinv : priorityInv k) :
    priorityInv (scheduler_add_ready_task (scheduler_remove_task k t) t) :=
  priorityInv_of_samePriorities
    (samePriorities_trans (remove_samePriorities k t) (add_ready_samePriorities _ t))
    hinv

theorem priorityInv_create (k : Kernel) (task : Option TaskId) (e : Bool) (p : Nat)
    (hinv : priorityInv k) : priorityInv (os_task_create k task e p).2 := by
  unfold os_task_create
  cases task with
  | none => exact hinv
  | some t =>
    dsimp only
    split
    · exact hinv
    · split
      · exact hinv
      · have h1 : priorityInv (updTask k t (fun _ =>
            { state := .ready, priority := p % 256, base_priority := p % 256,
              time_slice := TIME_SLICE_MS, run_time := 0 })) := by
          intro u
          by_cases hu : u = t
          · simp [updTask, hu]
          · simpa [updTask, hu] using hinv u
        exact priorityInv_of_samePriorities (add_ready_samePriorities _ t) h1

theorem priorityInv_set (k : Kernel) (task : Option TaskId) (p : Nat)
    (hinv : priorityInv k) : priorityInv (os_task_set_priority k task p).2 := by
  unfold os_task_set_priority
  cases task with
  | none => exact hinv
  | some t =>
    dsimp only
    have h1 : priorityInv (updTask k t (fun tcb =>
        { tcb with priority := p % 256, base_priority := p % 256 })) := by
      intro u
      by_cases hu : u = t
      · simp [updTask, hu]
      · simpa [updTask, hu] using hinv u
    repeat' split
    all_goals
      first
        | exact priorityInv_yield (priorityInv_requeue t h1)
        | exact priorityInv_requeue t h1
        | exact priorityInv_yield h1
        | exact h1

theorem priorityInv_raise (k : Kernel) (task : Option TaskId) (p : Nat)
    (hinv : priorityInv k) : priorityInv (os_task_raise_priority k task p).2 := by
  unfold os_task_raise_priority
  cases task with
  | none => exact hinv
  | some t =>
    dsimp only
    split
    · exact hinv
    · rename_i hguard
      have h1 : priorityInv (updTask k t (fun tcb =>
          { tcb with priority := p % 256 })) := by
        intro u
        by_cases hu : u = t
        · subst hu
          have := hinv u
          simp only [updTask, if_pos rfl]
          simp only [not_le] at hguard
          show p % 256 ≤ (k.tasks u).base_priority
          omega
        · simpa [updTask, hu] using hinv u
      repeat' split
      all_goals
        first
          | exact priorityInv_yield (priorityInv_requeue t h1)
          | exact priorityInv_requeue t h1
          | exact priorityInv_yield h1
          | exact h1

theorem priorityInv_reset (k : Kernel) (task : Option TaskId)
    (hinv : priorityInv k) : priorityInv (os_task_reset_priority k task).2 := by
  unfold os_task_reset_priority
  cases task with
  | none => exact hinv
  | some t =>
    dsimp only
    have h1 : priorityInv (updTask k t (fun tcb =>
        { tcb with priority := tcb.base_priority })) := by
      intro u
      by_cases hu : u = t
      · simp [updTask, hu]
      · simpa [updTask, hu] using hinv u
    repeat' split
    all_goals
      first
        | exact priorityInv_yield (priorityInv_requeue t h1)
        | exact priorityInv_requeue t h1
        | exact priorityInv_yield h1
        | exact h1

/-- A priority-changing operation of a task's history: the four API calls
the claim ranges over. -/
inductive KOp
  | create (task : Option TaskId) (entryNull : Bool) (priority : Nat)
  | setPriority (task : Option TaskId) (priority : Nat)
  | raisePriority (task : Option TaskId) (priority : Nat)
  | resetPriority (task : Option TaskId)

/-- Apply one operation (result codes are returned to the caller and do not
feed back into the kernel state). -/
def applyKOp (k : Kernel) : KOp → Kernel
  | .create t e p => (os_task_create k t e p).2
  | .setPriority t p => (os_task_set_priority k t p).2
  | .raisePriority t p => (os_task_raise_priority k t p).2
  | .resetPriority t => (os_task_reset_priority k t).2

/-- Run a sequence of priority-affecting API calls from a given state. -/
def runKOps (k : Kernel) : List KOp → Kernel
  | [] => k
  | op :: ops => runKOps (applyKOp k op) ops

theorem priorityInv_applyKOp {k : Kernel} (op : KOp) (hinv : priorityInv k) :
    priorityInv (applyKOp k op) := by
  cases op with
  | create t e p => exact priorityInv_create k t e p hinv
  | setPriority t p => exact priorityInv_set k t p hinv
  | raisePriority t p => exact priorityInv_raise k t p hinv
  | resetPriority t => exact priorityInv_reset k t hinv

theorem priorityInv_os_init : priorityInv os_init := by
  have h0 : priorityInv zeroKernel := by
    intro t
    exact Nat.le_refl 0
  exact priorityInv_create zeroKernel (some 0) false PRIORITY_IDLE h0

/-- C6: starting from `os_init`, after any sequence of `os_task_create`,
`os_task_set_priority`, `os_task_raise_priority` and `os_task_reset_priority`
calls, every task's current priority is numerically at most its base
priority: `set` writes both equal, `raise` only ever lowers the numeric
value of the current priority and never touches the base, and `reset`
copies the base into the current priority. -/
theorem c6_priority_le_base (ops : List KOp) (t : TaskId) :
    ((runKOps os_init ops).tasks t).priority
      ≤ ((runKOps os_init ops).tasks t).base_priority := by
  suffices h : priorityInv (runKOps os_init ops) from h t
  have hrun : ∀ (ops : List KOp) (k : Kernel), priorityInv k →
      priorityInv (runKOps k ops) := by
    intro ops
    induction ops with
    | nil => exact fun k h => h
    | cons op ops ih => exact fun k h => ih _ (priorityInv_applyKOp op h)
  exact hrun ops os_init priorityInv_os_init

/-- Witness for C6 at a concrete history: create task 1 at 100, boost it to
50, re-set it to 200, reset it. -/
theorem c6_priority_le_base_witness :
    ((runKOps os_init [KOp.create (some 1) false 100, KOp.raisePriority (some 1) 50,
        KOp.setPriority (some 1) 200, KOp.resetPriority (some 1)]).tasks 1).priority
      ≤ ((runKOps os_init [KOp.create (some 1) false 100, KOp.raisePriority (some 1) 50,
        KOp.setPriority (some 1) 200, KOp.resetPriority (some 1)]).tasks 1).base_priority :=
  c6_priority_le_base [KOp.create (some 1) false 100, KOp.raisePriority (some 1) 50,
    KOp.setPriority (some 1) 200, KOp.resetPriority (some 1)] 1

/-!  Field lemmas for `updTask` and the exact effect of one `os_task_yield`.  -/

@[simp] theorem updTask_current (k : Kernel) (t : TaskId) (f : TCB → TCB) :
    (updTask k t f).current_task = k.current_task := rfl

@[simp] theorem updTask_running (k : Kernel) (t : TaskId) (f : TCB → TCB) :
    (updTask k t f).scheduler_running = k.scheduler_running := rfl

@[simp] theorem updTask_tick (k : Kernel) (t : TaskId) (f : TCB → TCB) :
    (updTask k t f).tick_count = k.tick_count := rfl

@[simp] theorem updTask_csc (k : Kernel) (t : TaskId) (f : TCB → TCB) :
    (updTask k t f).context_switch_count = k.context_switch_count := rfl

@[simp] theorem updTask_queue (k : Kernel) (t : TaskId) (f : TCB → TCB) :
    (updTask k t f).ready_queue = k.ready_queue := rfl

@[simp] theorem updTask_count (k : Kernel) (t : TaskId) (f : TCB → TCB) :
    (updTask k t f).task_count = k.task_count := rfl

theorem updTask_tasks_apply (k : Kernel) (t : TaskId) (f : TCB → TCB) (u : TaskId) :
    (updTask k t f).tasks u = if u = t then f (k.tasks u) else k.tasks u := rfl

/-- What one `os_task_yield` does from a running state: the time slice is
zeroed and then decremented in `uint32_t`, giving `2^32 - 1`, so the
`== 0` test in `os_scheduler` fails and no context switch happens — only
the tick, the caller's run time, and the caller's slice change. -/
theorem yield_eq (k : Kernel) (ct : TaskId) (hrun : k.scheduler_running = true)
    (hct : k.current_task = some ct) :
    os_task_yield k
      = updTask { updTask k ct (fun tcb => { tcb with time_slice := 0 })
                  with tick_count := (k.tick_count + 1) % U32 } ct
          (fun tcb => { tcb with run_time := (tcb.run_time + 1) % U32,
                                 time_slice := (tcb.time_slice + (U32 - 1)) % U32 }) := by
  unfold os_task_yield
  rw [hct]
  unfold os_scheduler
  simp [updTask_running, hrun, updTask_current, hct, updTask_tasks_apply,
    updTask_tick, U32]

theorem yield_fields (k : Kernel) (ct : TaskId) (hrun : k.scheduler_running = true)
    (hct : k.current_task = some ct) :
    (os_task_yield k).current_task = some ct ∧
    (os_task_yield k).scheduler_running = true ∧
    (os_task_yield k).tick_count = (k.tick_count + 1) % U32 ∧
    (os_task_yield k).context_switch_count = k.context_switch_count ∧
    (os_task_yield k).ready_queue = k.ready_queue ∧
    (∀ u, u ≠ ct → (os_task_yield k).tasks u = k.tasks u) ∧
    ((os_task_yield k).tasks ct).run_time = (((k.tasks ct).run_time + 1) % U32) ∧
    ((os_task_yield k).tasks ct).state = (k.tasks ct).state := by
  rw [yield_eq k ct hrun hct]
  refine ⟨by simp [hct], by simp [hrun], rfl, rfl, rfl, ?_, ?_, ?_⟩
  · intro u hu
    simp [updTask_tasks_apply, hu]
  · simp [updTask_tasks_apply]
  · simp [updTask_tasks_apply]

/-!  C1: round-robin via `os_task_yield`.  -/

/-- The claim's scenario: `os_init`, three tasks created at priority 128 in
pool slots 1, 2, 3, then `os_start` (which dispatches task 1). -/
def rrKernel : Kernel :=
  let k := os_init
  let k := (os_task_create k (some 1) false 128).2
  let k := (os_task_create k (some 2) false 128).2
  let k := (os_task_create k (some 3) false 128).2
  os_start k

/-- Iterate `os_task_yield` (each task body is `loop { yield }`, so the
running task keeps calling yield). -/
def iterYield : Nat → Kernel → Kernel
  | 0, k => k
  | n + 1, k => iterYield n (os_task_yield k)

set_option maxRecDepth 1000000 in
/-- C1 evaluation at the failing input: task 1 is dispatched first and after
300 yields it is STILL the current task; no context switch ever happened,
task 1 accumulated all 300 run-time ticks, and tasks 2 and 3 never ran —
instead of each task being scheduled 100 ± 1 times.  The yield zeroes the
slice, then `os_scheduler` decrements it in `uint32_t` to `2^32 - 1`
before the `== 0` test, so the test never fires and the yielding task
keeps the CPU. -/
theorem c1_yield_never_switches :
    rrKernel.current_task = some 1 ∧
    (iterYield 300 rrKernel).current_task = some 1 ∧
    (iterYield 300 rrKernel).context_switch_count = 0 ∧
    ((iterYield 300 rrKernel).tasks 1).run_time = 300 ∧
    ((iterYield 300 rrKernel).tasks 2).run_time = 0 ∧
    ((iterYield 300 rrKernel).tasks 3).run_time = 0 := by
  refine ⟨by decide, by decide, by decide, by decide, by decide, by decide⟩

/-!  C4: `os_task_delay` across 32-bit tick wraparound.  -/

/-- A running system whose tick counter sits at the top of the 32-bit
range (`2^32 - 1`), current task 1. -/
def wrapKernel : Kernel :=
  { zeroKernel with scheduler_running := true, current_task := some 1,
                    tick_count := U32 - 1 }

/-- A running system with the tick counter at 0, current task 1. -/
def lowTickKernel : Kernel :=
  { zeroKernel with scheduler_running := true, current_task := some 1 }

/-- C4 evaluation at the failing input: at `tick_count = 2^32 - 1`,
`os_task_delay(2)` computes `target = (2^32 - 1 + 2) mod 2^32 = 1`; the
loop guard `tick_count < target` is `2^32 - 1 < 1 = false`, so the call
returns immediately with the counter not advanced at all (first conjunct:
the state is returned unchanged), although `n = 2 > 0` ticks should have
elapsed.  Away from the wrap boundary the same call does spin until the
counter advanced by 2 (last conjunct), showing the early return is the
wraparound case, not normal behaviour. -/
theorem c4_delay_wrap_returns_early :
    os_task_delay 10 wrapKernel 2 = wrapKernel ∧
    wrapKernel.tick_count = U32 - 1 ∧
    (0 : Nat) < 2 ∧
    (os_task_delay 10 lowTickKernel 2).tick_count = lowTickKernel.tick_count + 2 := by
  refine ⟨rfl, rfl, by decide, by decide⟩

/-!  Software timers (`src/timer.c`).  Timer control blocks are caller
storage; a `TimerId` stands for a `timer_t *`.  The intrusive `next`
pointers and the `active_timers` head are modelled directly, so every list
operation is the same sequence of pointer stores as the C.  A callback
invocation is logged in `fired` (callbacks run user code whose only
kernel-visible effect here is that the call happened).  -/

/-- `timer_type_t`. -/
inductive TimerType
  | oneShot
  | autoReload
deriving DecidableEq, Repr

/-- `timer_t` (include/tinyos.h lines 267-276) without the name, callback
pointer and parameter (raw code/data pointers). -/
structure Timer where
  type : TimerType
  period : Nat        -- uint32_t ticks
  expire_time : Nat   -- uint32_t
  active : Bool
deriving DecidableEq, Repr

/-- Stands for a `timer_t *`. -/
abbrev TimerId := Nat

/-- The file-scope `timer_manager` plus the caller-owned timer structs and
a log of callback invocations. -/
structure TimerSys where
  timers : TimerId → Timer
  next : TimerId → Option TimerId
  head : Option TimerId            -- timer_manager.active_timers
  timer_count : Nat                -- uint32_t
  fired : List TimerId

/-- A system with no timers created and the manager as `os_timer_init`
leaves it (timer.c lines 25-28). -/
def emptyTimerSys : TimerSys where
  timers := fun _ => { type := .oneShot, period := 0, expire_time := 0, active := false }
  next := fun _ => none
  head := none
  timer_count := 0
  fired := []

/-- `os_timer_create` (timer.c lines 33-65): reject a null timer or
callback or a zero period, else memset the struct and fill the fields,
inactive and unlinked. -/
def os_timer_create (ts : TimerSys) (t : Option TimerId) (callbackNull : Bool)
    (type : TimerType) (period_ms : Nat) : OsError × TimerSys :=
  match t with
  | none => (.invalidParam, ts)
  | some t =>
    if callbackNull ∨ period_ms = 0 then (.invalidParam, ts)
    else
      (.ok, { ts with
        timers := fun j => if j = t then
            { type := type, period := period_ms, expire_time := 0, active := false }
          else ts.timers j,
        next := fun j => if j = t then none else ts.next j })

/-- The predecessor search in `os_timer_stop` (timer.c lines 134-137):
`current = head; while (current != NULL && current->next != timer)
current = current->next`. -/
def findPrevTimer (ts : TimerSys) (t : TimerId) : Nat → Option TimerId → Option TimerId
  | _, none => none
  | 0, some c => some c
  | fuel + 1, some c =>
    if ts.next c = some t then some c
    else findPrevTimer ts t fuel (ts.next c)

/-- `os_timer_stop` (timer.c lines 116-151): no-op when inactive; else
unlink from the active list (head case or via the predecessor), clear the
active flag and the link, decrement the count. -/
def os_timer_stop (ts : TimerSys) (t : Option TimerId) : OsError × TimerSys :=
  match t with
  | none => (.invalidParam, ts)
  | some t =>
    if ¬ (ts.timers t).active then (.ok, ts)
    else
      let ts :=
        if ts.head = some t then { ts with head := ts.next t }
        else
          match findPrevTimer ts t U32 ts.head with
          | some p => { ts with next := fun j => if j = p then ts.next t else ts.next j }
          | none => ts
      (.ok, { ts with
        timers := fun j => if j = t then { ts.timers j with active := false }
                  else ts.timers j,
        next := fun j => if j = t then none else ts.next j,
        timer_count := (ts.timer_count + (U32 - 1)) % U32 })

/-- The sorted-position walk shared by `os_timer_start` (timer.c lines
97-100) and the auto-reload re-insertion of `os_timer_process` (lines
278-281): advance while the successor expires no later than `exp`. -/
def findInsertAfter (ts : TimerSys) (exp : Nat) : Nat → TimerId → TimerId
  | 0, c => c
  | fuel + 1, c =>
    match ts.next c with
    | none => c
    | some n =>
      if (ts.timers n).expire_time ≤ exp then findInsertAfter ts exp fuel n else c

/-- `os_timer_start` (timer.c lines 70-111): stop first if already active,
compute `expire_time = now + period` in `uint32_t`, mark active, insert in
ascending-expiry position (empty list, new head, or after the last node
with an expiry `≤` the new one), increment the count. -/
def os_timer_start (now : Nat) (ts : TimerSys) (t : Option TimerId) : OsError × TimerSys :=
  match t with
  | none => (.invalidParam, ts)
  | some t =>
    let ts := if (ts.timers t).active then (os_timer_stop ts (some t)).2 else ts
    let exp := (now + (ts.timers t).period) % U32
    let ts := { ts with timers := fun j => if j = t then
        { ts.timers j with expire_time := exp, active := true } else ts.timers j }
    let ts :=
      match ts.head with
      | none =>
        { ts with next := fun j => if j = t then none else ts.next j, head := some t }
      | some h =>
        if exp < (ts.timers h).expire_time then
          { ts with next := fun j => if j = t then some h else ts.next j, head := some t }
        else
          let c := findInsertAfter ts exp U32 h
          { ts with next := fun j =>
              if j = c then some t else if j = t then ts.next c else ts.next j }
    (.ok, { ts with timer_count := (ts.timer_count + 1) % U32 })

/-- The scan loop of `os_timer_process` (timer.c lines 238-293), walking
`timer`/`prev` exactly as the C does: detach each expired head-of-walk
timer, clear its active flag, decrement the count, invoke (log) its
callback, and for auto-reload timers re-arm at `now + period` and
re-insert sorted — the head-insert branch also redirects the walk to the
new head's successor.  The walk stops at the first unexpired timer (the
list is sorted) or at the end of the list. -/
def timerProcessLoop (now : Nat) :
    Nat → TimerSys → Option TimerId → Option TimerId → TimerSys
  | 0, ts, _, _ => ts
  | _ + 1, ts, none, _ => ts
  | fuel + 1, ts, some t, prev =>
    if (ts.timers t).expire_time ≤ now then
      let tnext := ts.next t
      let ts := match prev with
        | none => { ts with head := tnext }
        | some p => { ts with next := fun j => if j = p then tnext else ts.next j }
      let ts := { ts with
        timers := fun j => if j = t then { ts.timers j with active := false }
                  else ts.timers j,
        timer_count := (ts.timer_count + (U32 - 1)) % U32,
        fired := ts.fired ++ [t] }
      if (ts.timers t).type = .autoReload then
        let exp := (now + (ts.timers t).period) % U32
        let ts := { ts with timers := fun j => if j = t then
            { ts.timers j with expire_time := exp, active := true } else ts.timers j }
        match ts.head with
        | none =>
          let ts := { ts with next := fun j => if j = t then none else ts.next j,
                              head := some t }
          timerProcessLoop now fuel
            { ts with timer_count := (ts.timer_count + 1) % U32 } none (some t)
        | some h =>
          if exp < (ts.timers h).expire_time then
            let ts := { ts with next := fun j => if j = t then some h else ts.next j,
                                head := some t }
            timerProcessLoop now fuel
              { ts with timer_count := (ts.timer_count + 1) % U32 } (some h) (some t)
          else
            let c := findInsertAfter ts exp U32 h
            let ts := { ts with next := fun j =>
                if j = c then some t else if j = t then ts.next c else ts.next j }
            timerProcessLoop now fuel
              { ts with timer_count := (ts.timer_count + 1) % U32 } tnext prev
      else
        timerProcessLoop now fuel ts tnext prev
    else ts

/-- `os_timer_process` (timer.c lines 230-296): read the tick counter and
scan the active list from the head. -/
def os_timer_process (fuel : Nat) (now : Nat) (ts : TimerSys) : TimerSys :=
  timerProcessLoop now fuel ts ts.head none

/-- The tick-interrupt path as implemented: the timer ISR calls
`os_scheduler` (kernel.c line 91: "Scheduler - called by timer interrupt"),
and `os_scheduler` (kernel.c lines 93-126) contains no call to
`os_timer_process` — indeed no call site of `os_timer_process` exists
anywhere in the code base — so a tick leaves the timer subsystem as is. -/
def tick_interrupt (k : Kernel) (ts : TimerSys) : Kernel × TimerSys :=
  (os_scheduler k, ts)

/-- The C2 failing input, timer side: timer 0 created one-shot with period
5 and started at tick 0, so it expires at tick 5. -/
def c2TimerSys : TimerSys :=
  (os_timer_start 0 (os_timer_create emptyTimerSys (some 0) false .oneShot 5).2 (some 0)).2

/-- The C2 failing input, kernel side: running, current task 1, tick
counter 5 when the next tick interrupt arrives. -/
def c2Kernel : Kernel :=
  { zeroKernel with scheduler_running := true, current_task := some 1, tick_count := 5 }

/-- C2 evaluation at the failing input: the started one-shot timer is
active with expiry tick 5; the tick interrupt moves the counter to 6, at
which point the timer has expired, but the tick handler returns with the
timer subsystem byte-for-byte unchanged — still linked, still active,
callback never invoked — because `os_scheduler` never runs the expiry
scan.  Had `os_timer_process` been called as the claim requires, it would
have detached the timer, marked it inactive and invoked its callback
(last three conjuncts). -/
theorem c2_tick_skips_timer_scan :
    (c2TimerSys.timers 0).active = true ∧
    (c2TimerSys.timers 0).expire_time = 5 ∧
    c2TimerSys.head = some 0 ∧
    c2TimerSys.fired = [] ∧
    (tick_interrupt c2Kernel c2TimerSys).1.tick_count = 6 ∧
    (tick_interrupt c2Kernel c2TimerSys).2 = c2TimerSys ∧
    ((os_timer_process 10 6 c2TimerSys).timers 0).active = false ∧
    (os_timer_process 10 6 c2TimerSys).head = none ∧
    (os_timer_process 10 6 c2TimerSys).fired = [0] := by
  refine ⟨by decide, by decide, by decide, by decide, by decide, rfl,
    by decide, by decide, by decide⟩

/-!  `os_mutex_lock` (sync.c lines 26-67): a polling loop.  Each pass runs
under the critical section: an unlocked mutex is acquired (recording the
ceiling priority); a locked one triggers the priority-inheritance boost of
the owner when the caller outranks it, then the wrapping-subtraction
timeout test, then a yield and retry.  -/

/-- Outcome of one pass of the `while (true)` loop. -/
inductive LockStep
  | done (r : OsError) (m : Mutex) (k : Kernel)
  | again (m : Mutex) (k : Kernel)

/-- One pass of the lock loop (sync.c lines 34-66).  `mutex->owner->priority`
with a `NULL` owner, and `current_task->priority` with a `NULL` current
task, are undefined behaviour in the C; the model takes those reads only
when the pointers are non-null, as the source's guards ensure. -/
def mutexLockIter (m : Mutex) (k : Kernel) (start_tick timeout : Nat) : LockStep :=
  if ¬ m.locked then
    let m := { m with locked := true, owner := k.current_task }
    let ownerPri := match k.current_task with
      | some c => (k.tasks c).priority
      | none => 0
    let m := if m.ceiling_priority < ownerPri
             then { m with ceiling_priority := ownerPri } else m
    .done .ok m k
  else
    let k := match m.owner, k.current_task with
      | some o, some c =>
        if (k.tasks c).priority < (k.tasks o).priority
        then (os_task_raise_priority k (some o) ((k.tasks c).priority)).2
        else k
      | _, _ => k
    if timeout ≠ 0 ∧ timeout ≤ (k.tick_count + (U32 - start_tick)) % U32 then
      .done .timeout m k
    else
      .again m (os_task_yield k)

/-- The `while (true)` loop, with fuel; `none` means the fuel ran out while
the loop was still polling. -/
def mutexLockLoop (start timeout : Nat) :
    Nat → Mutex → Kernel → Option (OsError × Mutex × Kernel)
  | 0, _, _ => none
  | fuel + 1, m, k =>
    match mutexLockIter m k start timeout with
    | .done r m k => some (r, m, k)
    | .again m k => mutexLockLoop start timeout fuel m k

/-- `os_mutex_lock` (sync.c lines 26-67): record the start tick, then poll. -/
def os_mutex_lock (fuel : Nat) (m : Mutex) (k : Kernel) (timeout : Nat) :
    Option (OsError × Mutex × Kernel) :=
  mutexLockLoop k.tick_count timeout fuel m k

/-!  Field-preservation lemmas for the requeue helpers, needed to evaluate
`os_task_raise_priority` and `os_task_reset_priority` precisely.  -/

theorem add_ready_current (k : Kernel) (t : TaskId) :
    (scheduler_add_ready_task k t).current_task = k.current_task := rfl

theorem add_ready_running (k : Kernel) (t : TaskId) :
    (scheduler_add_ready_task k t).scheduler_running = k.scheduler_running := rfl

theorem add_ready_tick (k : Kernel) (t : TaskId) :
    (scheduler_add_ready_task k t).tick_count = k.tick_count := rfl

theorem remove_current (k : Kernel) (t : TaskId) :
    (scheduler_remove_task k t).current_task = k.current_task := by
  unfold scheduler_remove_task
  split <;> rfl

theorem remove_running (k : Kernel) (t : TaskId) :
    (scheduler_remove_task k t).scheduler_running = k.scheduler_running := by
  unfold scheduler_remove_task
  split <;> rfl

theorem remove_tick (k : Kernel) (t : TaskId) :
    (scheduler_remove_task k t).tick_count = k.tick_count := by
  unfold scheduler_remove_task
  split <;> rfl

theorem requeue_samePriorities (k : Kernel) (t : TaskId) :
    samePriorities k (scheduler_add_ready_task (scheduler_remove_task k t) t) :=
  samePriorities_trans (remove_samePriorities k t) (add_ready_samePriorities _ t)

theorem requeue_current (k : Kernel) (t : TaskId) :
    (scheduler_add_ready_task (scheduler_remove_task k t) t).current_task
      = k.current_task := by
  rw [add_ready_current, remove_current]

theorem requeue_running (k : Kernel) (t : TaskId) :
    (scheduler_add_ready_task (scheduler_remove_task k t) t).scheduler_running
      = k.scheduler_running := by
  rw [add_ready_running, remove_running]

theorem requeue_tick (k : Kernel) (t : TaskId) :
    (scheduler_add_ready_task (scheduler_remove_task k t) t).tick_count
      = k.tick_count := by
  rw [add_ready_tick, remove_tick]

theorem add_ready_tasks_ne (k : Kernel) (t u : TaskId) (hu : u ≠ t) :
    (scheduler_add_ready_task k t).tasks u = k.tasks u := by
  unfold scheduler_add_ready_task
  simp [updTask_tasks_apply, hu]

theorem requeue_tasks_ne (k : Kernel) (t u : TaskId) (hu : u ≠ t) :
    (scheduler_add_ready_task (scheduler_remove_task k t) t).tasks u = k.tasks u := by
  rw [add_ready_tasks_ne _ _ _ hu, remove_tasks_eq]

/-- Evaluation of the priority-inheritance boost inside `os_mutex_lock`:
raising the owner `o` (distinct from the caller `c`) to the caller's
priority when the caller strictly outranks it stores the caller's priority
as `o`'s current priority, leaves `o`'s base priority and every other task
untouched, and does NOT yield — the trailing comparison in
`os_task_raise_priority` is against the caller's own unchanged priority
and fails. -/
theorem raise_boost_fields (k : Kernel) (c o : TaskId)
    (hct : k.current_task = some c) (hoc : c ≠ o)
    (hc256 : (k.tasks c).priority < 256)
    (hlt : (k.tasks c).priority < (k.tasks o).priority) :
    ((os_task_raise_priority k (some o) ((k.tasks c).priority)).2.tasks o).priority
        = (k.tasks c).priority ∧
    ((os_task_raise_priority k (some o) ((k.tasks c).priority)).2.tasks o).base_priority
        = (k.tasks o).base_priority ∧
    (∀ u, u ≠ o → (os_task_raise_priority k (some o) ((k.tasks c).priority)).2.tasks u
        = k.tasks u) ∧
    (os_task_raise_priority k (some o) ((k.tasks c).priority)).2.current_task = some c ∧
    (os_task_raise_priority k (some o) ((k.tasks c).priority)).2.scheduler_running
        = k.scheduler_running ∧
    (os_task_raise_priority k (some o) ((k.tasks c).priority)).2.tick_count
        = k.tick_count := by
  have hmod : (k.tasks c).priority % 256 = (k.tasks c).priority := Nat.mod_eq_of_lt hc256
  unfold os_task_raise_priority
  dsimp only
  rw [if_neg (by omega : ¬ ((k.tasks o).priority ≤ (k.tasks c).priority % 256))]
  set K2 := updTask k o fun tcb =>
    { tcb with priority := (k.tasks c).priority % 256 } with hK2
  set K3 := if (K2.tasks o).state = TaskState.ready
    then scheduler_add_ready_task (scheduler_remove_task K2 o) o else K2 with hK3
  have hc3 : K3.current_task = some c := by
    rw [hK3]
    split
    · rw [requeue_current, hK2, updTask_current, hct]
    · rw [hK2, updTask_current, hct]
  have hpc3 : (K3.tasks c).priority = (k.tasks c).priority := by
    rw [hK3]
    split
    · rw [((requeue_samePriorities K2 o) c).1, hK2, updTask_tasks_apply, if_neg hoc]
    · rw [hK2, updTask_tasks_apply, if_neg hoc]
  have hpo3 : (K3.tasks o).priority = (k.tasks c).priority % 256 := by
    rw [hK3]
    split
    · rw [((requeue_samePriorities K2 o) o).1, hK2, updTask_tasks_apply, if_pos rfl]
    · rw [hK2, updTask_tasks_apply, if_pos rfl]
  have hbo3 : (K3.tasks o).base_priority = (k.tasks o).base_priority := by
    rw [hK3]
    split
    · rw [((requeue_samePriorities K2 o) o).2, hK2, updTask_tasks_apply, if_pos rfl]
    · rw [hK2, updTask_tasks_apply, if_pos rfl]
  have hne3 : ∀ u, u ≠ o → K3.tasks u = k.tasks u := by
    intro u hu
    rw [hK3]
    split
    · rw [requeue_tasks_ne _ _ _ hu, hK2, updTask_tasks_apply, if_neg hu]
    · rw [hK2, updTask_tasks_apply, if_neg hu]
  have hr3 : K3.scheduler_running = k.scheduler_running := by
    rw [hK3]
    split
    · rw [requeue_running, hK2, updTask_running]
    · rw [hK2, updTask_running]
  have ht3 : K3.tick_count = k.tick_count := by
    rw [hK3]
    split
    · rw [requeue_tick, hK2, updTask_tick]
    · rw [hK2, updTask_tick]
  rw [hc3]
  dsimp only
  rw [hpc3, if_neg (by omega : ¬ ((k.tasks c).priority % 256 < (k.tasks c).priority))]
  exact ⟨by rw [hpo3, hmod], hbo3, hne3, hc3, hr3, ht3⟩

/-- A pass of the lock loop on a locked mutex when the caller does NOT
outrank the owner: no boost, just the timeout test and (absent a timeout)
a yield-and-retry. -/
theorem lockIter_noboost (m : Mutex) (k : Kernel) (c o : TaskId) (start timeout : Nat)
    (hm : m.locked = true) (ho : m.owner = some o) (hct : k.current_task = some c)
    (hnb : ¬ ((k.tasks c).priority < (k.tasks o).priority)) :
    mutexLockIter m k start timeout
      = if timeout ≠ 0 ∧ timeout ≤ (k.tick_count + (U32 - start)) % U32
        then .done .timeout m k
        else .again m (os_task_yield k) := by
  unfold mutexLockIter
  rw [if_neg (by simp [hm])]
  rw [ho, hct]
  dsimp only
  rw [if_neg hnb]

/-- A pass of the lock loop on a locked mutex whose owner the caller
outranks, with the deadline not yet reached: the owner is boosted and the
loop yields and retries. -/
theorem lockIter_boost (m : Mutex) (k : Kernel) (c o : TaskId) (start timeout : Nat)
    (hm : m.locked = true) (ho : m.owner = some o) (hct : k.current_task = some c)
    (hc256 : (k.tasks c).priority < 256)
    (hlt : (k.tasks c).priority < (k.tasks o).priority)
    (hnotime : ¬ (timeout ≠ 0 ∧ timeout ≤ (k.tick_count + (U32 - start)) % U32)) :
    mutexLockIter m k start timeout
      = .again m (os_task_yield
          (os_task_raise_priority k (some o) ((k.tasks c).priority)).2) := by
  have hco : c ≠ o := by
    intro h
    rw [h] at hlt
    omega
  unfold mutexLockIter
  rw [if_neg (by simp [hm])]
  rw [ho, hct]
  dsimp only
  rw [if_pos hlt]
  rw [(raise_boost_fields k c o hct hco hc256 hlt).2.2.2.2.2]
  rw [if_neg hnotime]

/-- Spinning on a locked mutex the caller does not outrank reaches the
deadline: the loop returns `Timeout` with the mutex unchanged, and no
task's priority or base priority changes while it spins. -/
theorem mutexLockLoop_reaches_timeout (start timeout : Nat) (c o : TaskId) (m : Mutex)
    (hm : m.locked = true) (ho : m.owner = some o)
    (htO : timeout ≠ 0) (htU : timeout < U32) :
    ∀ fuel k, k.current_task = some c → k.scheduler_running = true →
      k.tick_count < U32 →
      ¬ ((k.tasks c).priority < (k.tasks o).priority) →
      (k.tick_count + (U32 - start)) % U32 ≤ timeout →
      timeout + 1 ≤ fuel + (k.tick_count + (U32 - start)) % U32 →
      ∃ k2, mutexLockLoop start timeout fuel m k = some (.timeout, m, k2)
        ∧ samePriorities k k2 := by
  intro fuel
  induction fuel with
  | zero =>
    intro k _ _ _ _ helap hfuel
    exact False.elim (by omega)
  | succ fuel ih =>
    intro k hct hrun htick hnb helap hfuel
    by_cases hdone : timeout ≤ (k.tick_count + (U32 - start)) % U32
    · refine ⟨k, ?_, samePriorities_refl k⟩
      unfold mutexLockLoop
      rw [lockIter_noboost m k c o start timeout hm ho hct hnb, if_pos ⟨htO, hdone⟩]
    · have hy := yield_fields k c hrun hct
      obtain ⟨hyc, hyr, hyt, _, _, _, _, _⟩ := hy
      have hsp := yield_samePriorities k
      have hnb2 : ¬ (((os_task_yield k).tasks c).priority
          < ((os_task_yield k).tasks o).priority) := by
        rw [(hsp c).1, (hsp o).1]
        exact hnb
      have htick2 : (os_task_yield k).tick_count < U32 := by
        rw [hyt]
        exact Nat.mod_lt _ (by norm_num [U32])
      have helap2 : ((os_task_yield k).tick_count + (U32 - start)) % U32 ≤ timeout := by
        rw [hyt]
        simp only [U32] at htick helap hdone htU ⊢
        omega
      have hfuel2 : timeout + 1
          ≤ fuel + ((os_task_yield k).tick_count + (U32 - start)) % U32 := by
        rw [hyt]
        simp only [U32] at htick helap hdone htU hfuel ⊢
        omega
      obtain ⟨k2, hloop, hsp2⟩ := ih (os_task_yield k) hyc hyr htick2 hnb2 helap2 hfuel2
      refine ⟨k2, ?_, samePriorities_trans hsp hsp2⟩
      unfold mutexLockLoop
      rw [lockIter_noboost m k c o start timeout hm ho hct hnb,
        if_neg (fun h => hdone h.2)]
      exact hloop

/-- First half of C7, proved on the whole `os_mutex_lock` call: with the
mutex held by a lower-priority owner and no concurrent release, the call
boosts the owner's current priority to the caller's on its first pass,
never touches any base priority, and eventually returns `Timeout` (the
owner cannot run to release: the polling yield never switches tasks); the
final state still shows the boost. -/
theorem lock_boosts_owner (m : Mutex) (k : Kernel) (c o : TaskId) (timeout fuel : Nat)
    (hm : m.locked = true) (ho : m.owner = some o) (hct : k.current_task = some c)
    (hrun : k.scheduler_running = true) (htick : k.tick_count < U32)
    (hc256 : (k.tasks c).priority < 256)
    (hlt : (k.tasks c).priority < (k.tasks o).priority)
    (htO : timeout ≠ 0) (htU : timeout < U32) (hfuel : timeout + 2 ≤ fuel) :
    ∃ k2, os_mutex_lock fuel m k timeout = some (.timeout, m, k2)
      ∧ (k2.tasks o).priority = (k.tasks c).priority
      ∧ (k2.tasks o).base_priority = (k.tasks o).base_priority
      ∧ (k2.tasks c).priority = (k.tasks c).priority := by
  have hco : c ≠ o := by
    intro h
    rw [h] at hlt
    omega
  obtain ⟨fuel, rfl⟩ : ∃ f, fuel = f + 1 := ⟨fuel - 1, by omega⟩
  unfold os_mutex_lock mutexLockLoop
  have hnotime : ¬ (timeout ≠ 0
      ∧ timeout ≤ (k.tick_count + (U32 - k.tick_count)) % U32) := by
    simp only [U32] at htick htU ⊢
    omega
  rw [lockIter_boost m k c o k.tick_count timeout hm ho hct hc256 hlt hnotime]
  dsimp only
  obtain ⟨hpo1, hbo1, hne1, hc1, hr1, ht1⟩ := raise_boost_fields k c o hct hco hc256 hlt
  set K1 := (os_task_raise_priority k (some o) ((k.tasks c).priority)).2 with hK1
  have hy := yield_fields K1 c (by rw [hr1]; exact hrun) hc1
  obtain ⟨hyc, hyr, hyt, _, _, _, _, _⟩ := hy
  have hsp1 := yield_samePriorities K1
  have hnb : ¬ (((os_task_yield K1).tasks c).priority
      < ((os_task_yield K1).tasks o).priority) := by
    rw [(hsp1 c).1, (hsp1 o).1, hpo1, hne1 c hco]
    omega
  have htick2 : (os_task_yield K1).tick_count < U32 := by
    rw [hyt]
    exact Nat.mod_lt _ (by norm_num [U32])
  have helap : ((os_task_yield K1).tick_count + (U32 - k.tick_count)) % U32 ≤ timeout := by
    rw [hyt, ht1]
    simp only [U32] at htick htU htO ⊢
    omega
  have hfl : timeout + 1
      ≤ fuel + ((os_task_yield K1).tick_count + (U32 - k.tick_count)) % U32 := by
    rw [hyt, ht1]
    simp only [U32] at htick htU hfuel ⊢
    omega
  obtain ⟨k2, hloop, hsp2⟩ := mutexLockLoop_reaches_timeout k.tick_count timeout c o m
    hm ho htO htU fuel (os_task_yield K1) hyc hyr htick2 hnb helap hfl
  refine ⟨k2, hloop, ?_, ?_, ?_⟩
  · rw [(hsp2 o).1, (hsp1 o).1, hpo1]
  · rw [(hsp2 o).2, (hsp1 o).2, hbo1]
  · rw [(hsp2 c).1, (hsp1 c).1, hne1 c hco]

/-- Whatever re-queueing and yielding `os_task_reset_priority` does after
writing `priority ← base_priority`, no priority field changes past that
write. -/
theorem reset_samePri_from_upd (k : Kernel) (o : TaskId) :
    samePriorities (updTask k o fun tcb => { tcb with priority := tcb.base_priority })
      (os_task_reset_priority k (some o)).2 := by
  unfold os_task_reset_priority
  dsimp only
  repeat' split
  all_goals
    first
      | exact samePriorities_trans (requeue_samePriorities _ _) (yield_samePriorities _)
      | exact requeue_samePriorities _ _
      | exact yield_samePriorities _
      | exact samePriorities_refl _

/-- `os_task_reset_priority` restores the task's current priority to its
base priority and leaves the base priority unchanged. -/
theorem reset_priority_fields (k : Kernel) (o : TaskId) :
    ((os_task_reset_priority k (some o)).2.tasks o).priority
        = (k.tasks o).base_priority ∧
    ((os_task_reset_priority k (some o)).2.tasks o).base_priority
        = (k.tasks o).base_priority := by
  have h := reset_samePri_from_upd k o
  constructor
  · rw [(h o).1, updTask_tasks_apply, if_pos rfl]
  · rw [(h o).2, updTask_tasks_apply, if_pos rfl]

/-- Second half of C7: `os_mutex_unlock` by the owner restores the owner
to its base priority (the restore happens before ownership is cleared:
`os_task_reset_priority` on line 89 of sync.c precedes the `locked = false`
and `owner = NULL` stores on lines 92-93) and releases the mutex. -/
theorem unlock_restores_base (m : Mutex) (k : Kernel) (o : TaskId)
    (hct : k.current_task = some o) (ho : m.owner = some o) :
    (os_mutex_unlock m k).1 = .ok ∧
    (os_mutex_unlock m k).2.1.locked = false ∧
    (os_mutex_unlock m k).2.1.owner = none ∧
    ((os_mutex_unlock m k).2.2.tasks o).priority = (k.tasks o).base_priority ∧
    ((os_mutex_unlock m k).2.2.tasks o).base_priority
        = (k.tasks o).base_priority := by
  unfold os_mutex_unlock
  rw [hct, if_neg (by simp [ho])]
  dsimp only
  refine ⟨rfl, rfl, rfl, ?_, ?_⟩
  · rw [((yield_samePriorities _) o).1, (reset_priority_fields k o).1]
  · rw [((yield_samePriorities _) o).2, (reset_priority_fields k o).2]

/-- C7: priority inheritance.  Part one: a task calling `os_mutex_lock` on
a mutex whose owner has a numerically larger (lower) priority raises the
owner's current priority to the caller's while the owner's base priority
is unchanged (and, absent a release, the call times out with the boost in
place).  Part two: when the owner calls `os_mutex_unlock`, its current
priority is restored to its base priority before ownership is released,
and the mutex ends unlocked and ownerless. -/
theorem c7_priority_inheritance :
    (∀ (m : Mutex) (k : Kernel) (c o : TaskId) (timeout fuel : Nat),
      m.locked = true → m.owner = some o → k.current_task = some c →
      k.scheduler_running = true → k.tick_count < U32 →
      (k.tasks c).priority < 256 →
      (k.tasks c).priority < (k.tasks o).priority →
      timeout ≠ 0 → timeout < U32 → timeout + 2 ≤ fuel →
      ∃ k2, os_mutex_lock fuel m k timeout = some (.timeout, m, k2)
        ∧ (k2.tasks o).priority = (k.tasks c).priority
        ∧ (k2.tasks o).base_priority = (k.tasks o).base_priority) ∧
    (∀ (m : Mutex) (k : Kernel) (o : TaskId),
      k.current_task = some o → m.owner = some o →
      (os_mutex_unlock m k).1 = .ok ∧
      (os_mutex_unlock m k).2.1.locked = false ∧
      (os_mutex_unlock m k).2.1.owner = none ∧
      ((os_mutex_unlock m k).2.2.tasks o).priority = (k.tasks o).base_priority ∧
      ((os_mutex_unlock m k).2.2.tasks o).base_priority
          = (k.tasks o).base_priority) := by
  constructor
  · intro m k c o timeout fuel hm ho hct hrun htick hc256 hlt htO htU hfuel
    obtain ⟨k2, h1, h2, h3, _⟩ :=
      lock_boosts_owner m k c o timeout fuel hm ho hct hrun htick hc256 hlt htO htU hfuel
    exact ⟨k2, h1, h2, h3⟩
  · intro m k o hct ho
    exact unlock_restores_base m k o hct ho

/-- Kernel state for the C7 witness: task 1 (priority 64) is current, task
2 (priority 192) owns the mutex. -/
def piKernel : Kernel :=
  { zeroKernel with
    scheduler_running := true,
    current_task := some 1,
    tasks := fun j =>
      if j = 1 then { state := .running, priority := 64, base_priority := 64,
                      time_slice := 10, run_time := 0 }
      else if j = 2 then { state := .ready, priority := 192, base_priority := 192,
                           time_slice := 10, run_time := 0 }
      else (zeroKernel.tasks j) }

/-- The C7 witness mutex: locked, owned by task 2. -/
def piMutex : Mutex := { locked := true, owner := some 2, ceiling_priority := 192 }

/-- Witness for C7 at the concrete inversion scenario of the spec (high
priority 64 blocks on a mutex held by low priority 192). -/
theorem c7_priority_inheritance_witness :
    (∃ k2, os_mutex_lock 5 piMutex piKernel 3 = some (.timeout, piMutex, k2)
      ∧ (k2.tasks 2).priority = (piKernel.tasks 1).priority
      ∧ (k2.tasks 2).base_priority = (piKernel.tasks 2).base_priority) ∧
    ((os_mutex_unlock piMutex { piKernel with current_task := some 2 }).1 = .ok ∧
     (os_mutex_unlock piMutex { piKernel with current_task := some 2 }).2.1.locked = false ∧
     (os_mutex_unlock piMutex { piKernel with current_task := some 2 }).2.1.owner = none ∧
     ((os_mutex_unlock piMutex { piKernel with current_task := some 2 }).2.2.tasks 2).priority
        = (({ piKernel with current_task := some 2 } : Kernel).tasks 2).base_priority ∧
     ((os_mutex_unlock piMutex { piKernel with current_task := some 2 }).2.2.tasks 2).base_priority
        = (({ piKernel with current_task := some 2 } : Kernel).tasks 2).base_priority) :=
  ⟨c7_priority_inheritance.1 piMutex piKernel 1 2 3 5 (by decide) (by decide) (by decide)
      (by decide) (by decide) (by decide) (by decide) (by decide) (by decide) (by decide),
   c7_priority_inheritance.2 piMutex { piKernel with current_task := some 2 } 2
      (by decide) (by decide)⟩

/-!  Event group (`event_group_t`, sync.c lines 288-408).  The group state
is the 32-bit `events` word; the wait queue field is never used by the
implementation (waiters poll).  -/

/-- `EVENT_WAIT_ALL` (include/tinyos.h line 104). -/
def EVENT_WAIT_ALL : Nat := 1

/-- `EVENT_WAIT_ANY` (include/tinyos.h line 105); `os_event_group_wait_bits`
never tests it — ANY is simply the else-branch of the ALL test. -/
def EVENT_WAIT_ANY : Nat := 2

/-- `EVENT_CLEAR_ON_EXIT` (include/tinyos.h line 106). -/
def EVENT_CLEAR_ON_EXIT : Nat := 4

/-- `os_event_group_set_bits` (sync.c lines 299-315): OR the bits in, then
yield. -/
def os_event_group_set_bits (events : Nat) (k : Kernel) (bits : Nat) :
    OsError × Nat × Kernel :=
  (.ok, events ||| bits, os_task_yield k)

/-- `os_event_group_clear_bits` (sync.c lines 320-333): AND with the
`uint32_t` complement. -/
def os_event_group_clear_bits (events : Nat) (bits : Nat) : OsError × Nat :=
  (.ok, events &&& ((U32 - 1) ^^^ bits))

/-- The per-pass match test of `os_event_group_wait_bits` (sync.c lines
360-366): ALL mode iff `options & EVENT_WAIT_ALL`, met when
`(events & mask) == mask`; otherwise ANY, met when `(events & mask) != 0`. -/
def egConditionMet (events mask options : Nat) : Bool :=
  if options &&& EVENT_WAIT_ALL != 0 then events &&& mask == mask
  else events &&& mask != 0

/-- Result of `os_event_group_wait_bits`: status, the value stored through
`bits_received` (when the out-pointer is non-null and the store happened),
the group's events word, and the kernel. -/
structure EGResult where
  err : OsError
  received : Option Nat
  events : Nat
  kernel : Kernel

/-- The polling loop of `os_event_group_wait_bits` (sync.c lines 354-392),
with fuel.  Each pass: test the condition under the critical section; on
match store `events & mask` through the out-pointer, clear the mask bits
when `EVENT_CLEAR_ON_EXIT` was requested, and return OK; else check the
wrapping-subtraction deadline, then yield and retry. -/
def egWaitLoop (mask options timeout start : Nat) :
    Nat → Nat → Kernel → Option EGResult
  | 0, _, _ => none
  | fuel + 1, events, k =>
    if egConditionMet events mask options then
      some { err := .ok, received := some (events &&& mask),
             events := if options &&& EVENT_CLEAR_ON_EXIT != 0
                       then events &&& ((U32 - 1) ^^^ mask) else events,
             kernel := k }
    else if timeout ≠ 0 ∧ timeout ≤ (k.tick_count + (U32 - start)) % U32 then
      some { err := .timeout, received := none, events := events, kernel := k }
    else
      egWaitLoop mask options timeout start fuel events (os_task_yield k)

/-- `os_event_group_wait_bits` (sync.c lines 339-393): reject a null group
(not modelled) or an empty mask, record the start tick, and poll. -/
def os_event_group_wait_bits (fuel : Nat) (events : Nat) (k : Kernel)
    (mask options timeout : Nat) : Option EGResult :=
  if mask = 0 then
    some { err := .invalidParam, received := none, events := events, kernel := k }
  else egWaitLoop mask options timeout k.tick_count fuel events k

/-- Clearing through the 32-bit complement wipes every mask bit. -/
theorem land_compl_mask_land_mask (e m : Nat) (hm : m < U32) :
    (e &&& ((U32 - 1) ^^^ m)) &&& m = 0 := by
  apply Nat.eq_of_testBit_eq
  intro i
  simp only [Nat.testBit_land, Nat.testBit_xor, Nat.zero_testBit]
  have hX : (U32 - 1).testBit i = decide (i < 32) := by
    have h32 : U32 - 1 = 2 ^ 32 - 1 := by norm_num [U32]
    rw [h32, Nat.testBit_two_pow_sub_one]
  rw [hX]
  by_cases hmi : m.testBit i = true
  · have hi : i < 32 := by
      by_contra hge
      have hlt : m < 2 ^ i := by
        have h1 : m < 2 ^ 32 := by norm_num [U32] at hm; omega
        exact lt_of_lt_of_le h1 (Nat.pow_le_pow_right (by norm_num) (le_of_not_lt hge))
      rw [Nat.testBit_lt_two_pow hlt] at hmi
      exact Bool.false_ne_true hmi
    simp [hmi, hi]
  · have hmi2 : m.testBit i = false := by
      cases h : m.testBit i
      · rfl
      · exact absurd h hmi
    simp [hmi2]

/-- Masking with the same word twice is the same as masking once. -/
theorem land_idem_right (e c : Nat) : (e &&& c) &&& c = e &&& c := by
  apply Nat.eq_of_testBit_eq
  intro i
  simp [Nat.testBit_land, Bool.and_assoc]

/-- A met condition returns on the first pass with the received bits and
the requested clearing. -/
theorem egWait_success (fuel events : Nat) (k : Kernel) (mask options timeout : Nat)
    (hmask : mask ≠ 0) (hfuel : 0 < fuel)
    (hcond : egConditionMet events mask options = true) :
    os_event_group_wait_bits fuel events k mask options timeout
      = some { err := .ok, received := some (events &&& mask),
               events := if options &&& EVENT_CLEAR_ON_EXIT != 0
                         then events &&& ((U32 - 1) ^^^ mask) else events,
               kernel := k } := by
  obtain ⟨fuel, rfl⟩ : ∃ f, fuel = f + 1 := ⟨fuel - 1, by omega⟩
  unfold os_event_group_wait_bits egWaitLoop
  rw [if_neg hmask, if_pos hcond]

/-- Polling with an unmet condition reaches the deadline: the loop returns
`Timeout` with the events word unchanged and nothing stored through the
out-pointer. -/
theorem egWaitLoop_reaches_timeout (mask options timeout start events : Nat) (c : TaskId)
    (hcond : egConditionMet events mask options = false)
    (htO : timeout ≠ 0) (htU : timeout < U32) :
    ∀ fuel k, k.current_task = some c → k.scheduler_running = true →
      k.tick_count < U32 →
      (k.tick_count + (U32 - start)) % U32 ≤ timeout →
      timeout + 1 ≤ fuel + (k.tick_count + (U32 - start)) % U32 →
      ∃ k2, egWaitLoop mask options timeout start fuel events k
        = some { err := .timeout, received := none, events := events, kernel := k2 } := by
  intro fuel
  induction fuel with
  | zero =>
    intro k _ _ _ helap hfuel
    exact False.elim (by omega)
  | succ fuel ih =>
    intro k hct hrun htick helap hfuel
    unfold egWaitLoop
    rw [if_neg (by simp [hcond])]
    by_cases hdone : timeout ≤ (k.tick_count + (U32 - start)) % U32
    · rw [if_pos ⟨htO, hdone⟩]
      exact ⟨k, rfl⟩
    · rw [if_neg (fun h => hdone h.2)]
      have hy := yield_fields k c hrun hct
      obtain ⟨hyc, hyr, hyt, _, _, _, _, _⟩ := hy
      exact ih (os_task_yield k) hyc hyr
        (by rw [hyt]; exact Nat.mod_lt _ (by norm_num [U32]))
        (by rw [hyt]; simp only [U32] at htick helap hdone htU ⊢; omega)
        (by rw [hyt]; simp only [U32] at htick helap hdone htU hfuel ⊢; omega)

/-- With an unmet condition the loop can only time out (or run out of
fuel); it never reports success and never touches the events word. -/
theorem egWaitLoop_never_ok (mask options timeout start events : Nat)
    (hcond : egConditionMet events mask options = false) :
    ∀ fuel k r, egWaitLoop mask options timeout start fuel events k = some r →
      r.err = .timeout ∧ r.received = none ∧ r.events = events := by
  intro fuel
  induction fuel with
  | zero =>
    intro k r h
    exact absurd h (by simp [egWaitLoop])
  | succ fuel ih =>
    intro k r h
    unfold egWaitLoop at h
    rw [if_neg (by simp [hcond])] at h
    by_cases hdone : timeout ≠ 0 ∧ timeout ≤ (k.tick_count + (U32 - start)) % U32
    · rw [if_pos hdone] at h
      injection h with h
      subst h
      exact ⟨rfl, rfl, rfl⟩
    · rw [if_neg hdone] at h
      exact ih _ r h

/-- C8: `os_event_group_wait_bits` for a nonzero mask.  (i) The match test
is exactly `(events & mask) == mask` in ALL mode and `(events & mask) != 0`
in ANY mode.  (ii) When met, the call succeeds, stores `events & mask` as
the received bits and, with `EVENT_CLEAR_ON_EXIT`, clears exactly the
matched bits — every mask bit of the result is clear and every bit outside
the mask is unchanged — while without it the events word is untouched.
(iii) When unmet (and nobody sets bits — with the polling yield no other
task can run), a nonzero deadline produces `Timeout` with nothing stored
and no bits cleared, and (iv) an unmet condition can never produce
success, whatever the fuel. -/
theorem c8_event_group_wait_bits :
    (∀ events mask options,
      egConditionMet events mask options = true
        ↔ if options &&& EVENT_WAIT_ALL ≠ 0 then events &&& mask = mask
          else events &&& mask ≠ 0) ∧
    (∀ fuel events k mask options timeout, mask ≠ 0 → mask < U32 → 0 < fuel →
      egConditionMet events mask options = true →
      ∃ events2,
        os_event_group_wait_bits fuel events k mask options timeout
          = some { err := .ok, received := some (events &&& mask),
                   events := events2, kernel := k }
        ∧ (options &&& EVENT_CLEAR_ON_EXIT ≠ 0 →
            events2 &&& mask = 0
            ∧ events2 &&& ((U32 - 1) ^^^ mask) = events &&& ((U32 - 1) ^^^ mask))
        ∧ (options &&& EVENT_CLEAR_ON_EXIT = 0 → events2 = events)) ∧
    (∀ fuel events k mask options timeout c, mask ≠ 0 →
      egConditionMet events mask options = false →
      k.current_task = some c → k.scheduler_running = true → k.tick_count < U32 →
      timeout ≠ 0 → timeout < U32 → timeout + 1 ≤ fuel →
      ∃ k2, os_event_group_wait_bits fuel events k mask options timeout
        = some { err := .timeout, received := none, events := events, kernel := k2 }) ∧
    (∀ fuel events k mask options timeout r, mask ≠ 0 →
      egConditionMet events mask options = false →
      os_event_group_wait_bits fuel events k mask options timeout = some r →
      r.err = .timeout ∧ r.received = none ∧ r.events = events) := by
  refine ⟨?_, ?_, ?_, ?_⟩
  · intro events mask options
    unfold egConditionMet
    by_cases h : options &&& EVENT_WAIT_ALL = 0
    · simp [h]
    · simp [h]
  · intro fuel events k mask options timeout hmask hmU hfuel hcond
    refine ⟨if options &&& EVENT_CLEAR_ON_EXIT != 0
            then events &&& ((U32 - 1) ^^^ mask) else events,
      egWait_success fuel events k mask options timeout hmask hfuel hcond, ?_, ?_⟩
    · intro hclear
      rw [if_pos (by simpa using hclear)]
      exact ⟨land_compl_mask_land_mask events mask hmU, land_idem_right events _⟩
    · intro hclear0
      rw [if_neg (by simp [hclear0])]
  · intro fuel events k mask options timeout c hmask hcond hct hrun htick htO htU hfuel
    unfold os_event_group_wait_bits
    rw [if_neg hmask]
    exact egWaitLoop_reaches_timeout mask options timeout k.tick_count events c
      hcond htO htU fuel k hct hrun htick
      (by simp only [U32] at htick ⊢; omega)
      (by simp only [U32] at htick hfuel ⊢; omega)
  · intro fuel events k mask options timeout r hmask hcond h
    unfold os_event_group_wait_bits at h
    rw [if_neg hmask] at h
    exact egWaitLoop_never_ok mask options timeout k.tick_count events hcond fuel k r h

/-- Witness for C8: ANY-mode success with auto-clear on events `0b101`,
mask `0b110` (received `0b100`, events left `0b001`), and an ALL-mode
timeout with mask 1 on an empty group. -/
theorem c8_event_group_wait_bits_witness :
    (∃ events2,
      os_event_group_wait_bits 1 5 lowTickKernel 6 EVENT_CLEAR_ON_EXIT 0
        = some { err := .ok, received := some (5 &&& 6),
                 events := events2, kernel := lowTickKernel }
      ∧ (EVENT_CLEAR_ON_EXIT &&& EVENT_CLEAR_ON_EXIT ≠ 0 →
          events2 &&& 6 = 0
          ∧ events2 &&& ((U32 - 1) ^^^ 6) = 5 &&& ((U32 - 1) ^^^ 6))
      ∧ (EVENT_CLEAR_ON_EXIT &&& EVENT_CLEAR_ON_EXIT = 0 → events2 = 5)) ∧
    (∃ k2, os_event_group_wait_bits 3 0 lowTickKernel 1 EVENT_WAIT_ALL 2
      = some { err := .timeout, received := none, events := 0, kernel := k2 }) :=
  ⟨c8_event_group_wait_bits.2.1 1 5 lowTickKernel 6 EVENT_CLEAR_ON_EXIT 0
      (by decide) (by decide) (by decide) (by decide),
   c8_event_group_wait_bits.2.2.1 3 0 lowTickKernel 1 EVENT_WAIT_ALL 2 1
      (by decide) (by decide) (by decide) (by decide) (by decide)
      (by decide) (by decide) (by decide)⟩

end TinyOS
